import Mathlib

set_option maxRecDepth 100000

/-!
Verification of the legal_doc_analyzer chunking and storage pipeline.

This file embeds, in Lean, the parts of the repository that the claims
refer to:

* `PDFProcessor._split_text` (processors/pdf_processor.py) — the chunking
  engine: a while-loop over a cursor with Python string-slice and `rfind`
  semantics, including Python's negative-index behaviour, since the loop
  can drive its cursor negative.
* `AudioProcessor.process`, `PDFProcessor.process`, `VideoProcessor.process`
  — the content extractors' metadata attachment and failure policy, with
  the external black-box capabilities (text extraction, speech-to-text,
  the langchain text splitter) passed in as parameters and failures of the
  wrapped bodies modelled as `Except` values.
* `ChromaStore` (storage/vector_store.py) — the metadata filtering done at
  the storage boundary and the per-operation error policy, with the
  backing-store outcome passed in as an `Except` value.
* `BaseChunker._validate_chunk` / `BaseChunk.__len__`
  (chunkers/base_chunker.py) — the chunk validity check.

The while-loop of `_split_text` is not total (that is one of the findings),
so it is embedded with explicit fuel: `none` means the fuel ran out.
-/

/-- A Python scalar metadata value as used in the chunk metadata dicts. -/
inductive MetaValue where
  | vStr (s : String)
  | vInt (n : Int)
  | vFloat (q : Rat)
  | vNone
  deriving DecidableEq, Repr

/-- A Python metadata dict, as an association list (keys unique in practice). -/
abbrev Metadata := List (String × MetaValue)

/-- Python `md.get(k)`: first binding of `k`, if any. -/
def Metadata.get? (md : Metadata) (k : String) : Option MetaValue :=
  List.lookup k md

/-- Python `md.get(k, d)`: lookup with default. -/
def Metadata.getD (md : Metadata) (k : String) (d : MetaValue) : MetaValue :=
  (md.get? k).getD d

/-- The chunk record (storage/base.py `BaseChunk`): content plus metadata. -/
structure BaseChunk where
  content : String
  metadata : Metadata
  deriving DecidableEq, Repr

/-! ### Python string primitives used by `_split_text` -/

/-- Python slice `s[a:b]` (step 1) on a list of characters, including the
semantics of negative indices: a negative bound counts from the end, and
bounds are clamped to `[0, len]`. -/
def pySlice (s : List Char) (a b : Int) : List Char :=
  let n : Int := s.length
  let a' : Int := if a < 0 then max 0 (n + a) else min a n
  let b' : Int := if b < 0 then max 0 (n + b) else min b n
  (s.take b'.toNat).drop a'.toNat

/-- Python `s.rfind(c)`: the highest index at which `c` occurs, or `-1`. -/
def pyRfind : List Char → Char → Int
  | [], _ => -1
  | a :: rest, c =>
      if pyRfind rest c ≠ -1 then pyRfind rest c + 1
      else if a = c then 0 else -1

/-- Python `s.strip()`: remove leading and trailing whitespace. -/
def pyStrip (s : List Char) : List Char :=
  ((s.dropWhile Char.isWhitespace).reverse.dropWhile Char.isWhitespace).reverse

/-! ### The chunking engine: `PDFProcessor._split_text` -/

/-- The splitter configuration (`chunk_size`, `chunk_overlap`). -/
structure SplitConfig where
  chunkSize : Nat
  chunkOverlap : Nat
  deriving DecidableEq, Repr

/-- Default configuration of `PDFProcessor.__init__`. -/
def defaultSplitConfig : SplitConfig := ⟨1000, 200⟩

/-- One iteration of the `while start < text_len` loop body of
`PDFProcessor._split_text`: from the cursor `start` compute the emitted
chunk and the next cursor value `end - chunk_overlap`. -/
def splitStep (cfg : SplitConfig) (text : List Char) (start : Int) :
    List Char × Int :=
  let end0 : Int := start + cfg.chunkSize
  let chunk0 := pySlice text start end0
  let (chunk, endF) :=
    if end0 < (text.length : Int) then
      let lastNewline := pyRfind chunk0 '\n'
      let lastSpace := pyRfind chunk0 ' '
      let breakPoint := max lastNewline lastSpace
      if breakPoint ≠ -1 then
        (pySlice text start (start + breakPoint), start + breakPoint)
      else
        (chunk0, end0)
    else
      (chunk0, end0)
  (chunk, endF - (cfg.chunkOverlap : Int))

/-- The whole loop of `_split_text`, run with explicit fuel, recording each
iteration's cursor together with the chunk it appends.  `none` means the
fuel was exhausted before the loop condition `start < text_len` failed. -/
def splitLoop (cfg : SplitConfig) (text : List Char) :
    Nat → Int → Option (List (Int × List Char))
  | 0, start =>
      if start < (text.length : Int) then none else some []
  | fuel + 1, start =>
      if start < (text.length : Int) then
        match splitLoop cfg text fuel (splitStep cfg text start).2 with
        | none => none
        | some rest => some ((start, (splitStep cfg text start).1) :: rest)
      else
        some []

/-- The function `_split_text` itself: the list of chunks, starting from cursor 0. -/
def splitText (cfg : SplitConfig) (fuel : Nat) (text : List Char) :
    Option (List (List Char)) :=
  (splitLoop cfg text fuel 0).map (List.map Prod.snd)

/-! ### Content extractors -/

/-- Python `enumerate` over a list, threading the index: the shape of every
`for i, x in enumerate(xs)` loop in the extractors. -/
def enumMap (f : Nat → α → β) : Nat → List α → List β
  | _, [] => []
  | i, x :: xs => f i x :: enumMap f (i + 1) xs

/-- The chunk built for part `j` of page `i` (0-based) in
`PDFProcessor.process`; `_detect_language` always returns `"en"`. -/
def pdfChunk (sourceFile : String) (pageIdx : Nat) (j : Nat) (t : String) :
    BaseChunk where
  content := t
  metadata :=
    [("document_type", .vStr "pdf"),
     ("page_number", .vInt (pageIdx + 1)),
     ("chunk_index", .vInt j),
     ("source_file", .vStr sourceFile),
     ("language", .vStr "en")]

/-- The inner `for j, chunk_text in enumerate(text_chunks)` loop of
`PDFProcessor.process` for one page. -/
def pdfPageChunks (sourceFile : String) (pageIdx : Nat)
    (parts : List String) : List BaseChunk :=
  enumMap (pdfChunk sourceFile pageIdx) 0 parts

/-- The per-page loop of `PDFProcessor.process`: pages whose extracted text
is empty after trimming are skipped; the rest are split (fuelled) and the
resulting parts wrapped with metadata.  `none` propagates fuel exhaustion
of the splitter. -/
def pdfProcessPages (cfg : SplitConfig) (fuel : Nat) (sourceFile : String) :
    Nat → List String → Option (List BaseChunk)
  | _, [] => some []
  | i, text :: rest =>
      if pyStrip text.toList = [] then
        pdfProcessPages cfg fuel sourceFile (i + 1) rest
      else
        match splitText cfg fuel text.toList,
              pdfProcessPages cfg fuel sourceFile (i + 1) rest with
        | some parts, some restChunks =>
            some (pdfPageChunks sourceFile i (parts.map List.asString)
                    ++ restChunks)
        | _, _ => none

/-- Model of `PDFProcessor.process` on the outcome of opening/extracting the file:
the external text extraction yields per-page raw text, or fails; the
surrounding `try/except` re-raises any failure (`raise`). -/
def pdfProcess (cfg : SplitConfig) (fuel : Nat) (sourceFile : String)
    (outcome : Except String (List String)) :
    Except String (Option (List BaseChunk)) :=
  match outcome with
  | .error e => .error e
  | .ok pages => .ok (pdfProcessPages cfg fuel sourceFile 0 pages)

/-- The speech-to-text result dict of `whisper.transcribe`: `text` and an
optional `language` (`result.get("language", "en")`). -/
structure TranscriptResult where
  text : Option String
  language : Option String
  deriving DecidableEq, Repr

/-- The sentinel chunk `AudioProcessor.process` returns when the
transcription result is falsy or carries no text. -/
def noSpeechChunk (sourceFile : String) : BaseChunk where
  content := "[Audio content detected]"
  metadata :=
    [("document_type", .vStr "audio"),
     ("source_file", .vStr sourceFile),
     ("language", .vStr "en"),
     ("status", .vStr "no_speech_detected")]

/-- The error chunk `AudioProcessor.process` returns from its `except`
handler instead of re-raising. -/
def audioErrorChunk (sourceFile : String) (e : String) : BaseChunk where
  content := "[Error processing audio: " ++ e ++ "]"
  metadata :=
    [("document_type", .vStr "audio"),
     ("source_file", .vStr sourceFile),
     ("status", .vStr "error"),
     ("error", .vStr e)]

/-- The chunk built for transcript part `i` in `AudioProcessor.process`:
content is stripped, `total_chunks` is the number of parts. -/
def audioChunk (sourceFile lang : String) (total : Nat) (i : Nat)
    (t : String) : BaseChunk where
  content := (pyStrip t.toList).asString
  metadata :=
    [("document_type", .vStr "audio"),
     ("chunk_index", .vInt i),
     ("total_chunks", .vInt total),
     ("source_file", .vStr sourceFile),
     ("language", .vStr lang)]

/-- The `for i, chunk_text in enumerate(text_chunks)` loop of
`AudioProcessor.process` over the transcript parts. -/
def audioTranscriptChunks (sourceFile lang : String)
    (parts : List String) : List BaseChunk :=
  enumMap (audioChunk sourceFile lang parts.length) 0 parts

/-- The successful-transcription body of `AudioProcessor.process`: the
external langchain `RecursiveCharacterTextSplitter` is a black-box
capability, passed in as `splitter`.  A falsy result (`not result or not
result.get("text")`) yields the single no-speech sentinel chunk. -/
def audioProcessBody (splitter : String → List String) (sourceFile : String)
    (result : Option TranscriptResult) : List BaseChunk :=
  match result with
  | none => [noSpeechChunk sourceFile]
  | some r =>
      match r.text with
      | none => [noSpeechChunk sourceFile]
      | some t =>
          if t = "" then [noSpeechChunk sourceFile]
          else audioTranscriptChunks sourceFile (r.language.getD "en")
                 (splitter t)

/-- Model of `AudioProcessor.process`: any failure of the wrapped body (transcription
included) is caught and converted to a single error chunk, never
re-raised. -/
def audioProcess (splitter : String → List String) (sourceFile : String)
    (outcome : Except String (Option TranscriptResult)) : List BaseChunk :=
  match outcome with
  | .error e => [audioErrorChunk sourceFile e]
  | .ok result => audioProcessBody splitter sourceFile result

/-- Model of `VideoProcessor.process` on the outcome of the wrapped body (opening the
video, extracting audio, sampling frames): on success the audio chunks and
the frame-detection chunks are concatenated; the `except` handler
re-raises (`raise`). -/
def videoProcess
    (outcome : Except String (List BaseChunk × List BaseChunk)) :
    Except String (List BaseChunk) :=
  match outcome with
  | .error e => .error e
  | .ok (audioChunks, frameChunks) => .ok (audioChunks ++ frameChunks)

/-! ### The chunk validity check (chunkers/base_chunker.py) -/

/-- Python `BaseChunk.__len__`: the length of the content after stripping
whitespace. -/
def chunkLen (c : BaseChunk) : Nat := (pyStrip c.content.toList).length

/-- The check `BaseChunker._validate_chunk`: `len(chunk) >= self.min_chunk_size`.
The default `min_chunk_size` is 10. -/
def validateChunk (minChunkSize : Nat) (c : BaseChunk) : Bool :=
  minChunkSize ≤ chunkLen c

/-! ### The vector index (storage/vector_store.py `ChromaStore`) -/

/-- The metadata dict built at the storage boundary by
`ChromaStore.add_document` and `ChromaStore.batch_add_documents`: exactly
these six keys, with `dict.get` defaults. -/
def storedMeta (md : Metadata) : Metadata :=
  [("document_type", (md.get? "document_type").getD .vNone),
   ("page_number", (md.get? "page_number").getD .vNone),
   ("timestamp", md.getD "timestamp" (.vFloat 0)),
   ("source_file", (md.get? "source_file").getD .vNone),
   ("chunk_index", md.getD "chunk_index" (.vInt 0)),
   ("language", md.getD "language" (.vStr "en"))]

/-- The recognized metadata keys of the data model (spec §3). -/
def recognizedKeys : List String :=
  ["document_type", "source_file", "chunk_index", "total_chunks",
   "page_number", "timestamp", "language", "status"]

/-- What `ChromaStore.add_document` sends to the backing store for one
chunk: the content unchanged and the filtered metadata. -/
def addDocumentSent (c : BaseChunk) : List String × List Metadata :=
  ([c.content], [storedMeta c.metadata])

/-- What `ChromaStore.batch_add_documents` sends to the backing store. -/
def batchAddSent (cs : List BaseChunk) : List String × List Metadata :=
  (cs.map (·.content), cs.map (fun c => storedMeta c.metadata))

/-- Model of `ChromaStore.add_document`, given the backing store's response to
`add_texts`: failures re-raise; on success the first returned id is the
result (an empty id list would raise an IndexError, which also
propagates). -/
def addDocument (outcome : Except String (List String)) :
    Except String String :=
  match outcome with
  | .error e => .error e
  | .ok [] => .error "IndexError"
  | .ok (i :: _) => .ok i

/-- Model of `ChromaStore.batch_add_documents`, given the backing store's response:
failures re-raise. -/
def batchAddDocuments (outcome : Except String (List String)) :
    Except String Unit :=
  match outcome with
  | .error e => .error e
  | .ok _ => .ok ()

/-- A search result (storage/base.py `SearchResult`). -/
structure SearchResult where
  id : String
  content : String
  score : Rat
  metadata : Metadata
  deriving DecidableEq, Repr

/-- A document as returned by the backing store's similarity search. -/
structure StoreDoc where
  pageContent : String
  metadata : Metadata
  deriving DecidableEq, Repr

/-- The metadata subset `ChromaStore.search` copies into each result. -/
def searchResultMeta (md : Metadata) : Metadata :=
  [("document_type", (md.get? "document_type").getD .vNone),
   ("page_number", (md.get? "page_number").getD .vNone),
   ("source_file", (md.get? "source_file").getD .vNone),
   ("language", (md.get? "language").getD .vNone)]

/-- Model of `ChromaStore.search`, given the backing store's response: any failure
is swallowed and an empty result list returned. -/
def searchStore (outcome : Except String (List (StoreDoc × Rat))) :
    List SearchResult :=
  match outcome with
  | .error _ => []
  | .ok docsAndScores =>
      docsAndScores.map (fun p =>
        { id := match p.1.metadata.get? "id" with
                | some (.vStr s) => s
                | _ => ""
          content := p.1.pageContent
          score := p.2
          metadata := searchResultMeta p.1.metadata })

/-- The backing store's response to `Chroma.get(ids=[id])`. -/
structure GetResult where
  documents : List String
  metadatas : List Metadata
  deriving DecidableEq, Repr

/-- Model of `ChromaStore.get_document`, given the backing store's response: an
absent id gives an empty `documents` list and the function falls through
to `None`; a failure is caught and also yields `None`. -/
def getDocument (outcome : Except String GetResult) :
    Option (String × Metadata) :=
  match outcome with
  | .error _ => none
  | .ok r =>
      match r.documents, r.metadatas with
      | d :: _, m :: _ => some (d, searchResultMeta m)
      | _, _ => none

/-- Model of `ChromaStore.delete_document`, given the backing store's response:
failures re-raise. -/
def deleteDocument (outcome : Except String Unit) : Except String Unit :=
  match outcome with
  | .error e => .error e
  | .ok _ => .ok ()

/-- The scenario string of the spec test scenario (sect. 8): `"A" * 1500 + " " + "B" * 1500`. -/
def scenarioText : List Char :=
  List.replicate 1500 'A' ++ ' ' :: List.replicate 1500 'B'

/-- The six keys the storage boundary persists, in the order the code
builds them. -/
def storedKeys : List String :=
  ["document_type", "page_number", "timestamp", "source_file",
   "chunk_index", "language"]

/-! ### Helper lemmas -/

/-- If the loop condition holds and the recursive call from the stepped
cursor runs out of fuel, one more unit of fuel still runs out. -/
theorem splitLoop_none_step (cfg : SplitConfig) (text : List Char)
    (fuel : Nat) (s : Int) (hlt : s < (text.length : Int))
    (hrec : splitLoop cfg text fuel (splitStep cfg text s).2 = none) :
    splitLoop cfg text (fuel + 1) s = none := by
  unfold splitLoop
  rw [if_pos hlt, hrec]

/-- Mapping a per-chunk observation over an `enumerate` loop whose value at
index `i` is `h i` yields the observations along the index range. -/
theorem enumMap_map_range (f : Nat → String → BaseChunk)
    (g : BaseChunk → α) (h : Nat → α) (hg : ∀ i t, g (f i t) = h i) :
    ∀ (j : Nat) (parts : List String),
      (enumMap f j parts).map g = (List.range' j parts.length).map h := by
  intro j parts
  induction parts generalizing j with
  | nil => rfl
  | cons p ps ih =>
      simp only [enumMap, List.map_cons, hg, List.length_cons,
        List.range'_succ, ih]

/-- Mapping a constant per-chunk observation over an `enumerate` loop. -/
theorem enumMap_map_const (f : Nat → String → BaseChunk)
    (g : BaseChunk → α) (c : α) (hg : ∀ i t, g (f i t) = c) :
    ∀ (j : Nat) (parts : List String),
      (enumMap f j parts).map g = List.replicate parts.length c := by
  intro j parts
  induction parts generalizing j with
  | nil => rfl
  | cons p ps ih =>
      simp only [enumMap, List.map_cons, hg, List.length_cons,
        List.replicate_succ, ih]

/-! ### Claims -/

/-- C2: refuted on the code (the spec's mandated guard is missing).  With
`max_size = 3 > overlap = 2 ≥ 0` and the text `"AA BBBBBB"`, the first
iteration breaks at the space at window-relative index 2, so the next
cursor is `window_end − overlap = 2 − 2 = 0`: the cursor does not advance,
no configuration error is raised, and the loop never terminates — for
every fuel bound the loop is still running. -/
theorem C2_split_loop_does_not_terminate :
    (splitStep ⟨3, 2⟩ "AA BBBBBB".toList 0).2 = 0 ∧
    ∀ fuel : Nat, splitLoop ⟨3, 2⟩ "AA BBBBBB".toList fuel 0 = none := by
  refine ⟨by decide, ?_⟩
  intro fuel
  induction fuel with
  | zero => decide
  | succ n ih =>
      apply splitLoop_none_step _ _ _ _ (by decide)
      have h2 : (splitStep ⟨3, 2⟩ "AA BBBBBB".toList 0).2 = 0 := by decide
      rw [h2]
      exact ih

/-- C1: refuted on the code.  For the text `" AAAA"` with
`max_size = 3 > overlap = 1 ≥ 0` the splitter terminates and returns the
chunks `["", "", "AAA", "AA"]`: the space at position 0 of the input
occurs in no produced chunk (the input contains one space, the
concatenation of all chunks contains none), so no concatenation of chunk
prefixes — overlapping or not — can reconstruct the input. -/
theorem C1_reconstruction_fails :
    splitText ⟨3, 1⟩ 10 " AAAA".toList =
      some ["".toList, "".toList, "AAA".toList, "AA".toList] ∧
    " AAAA".toList.count ' ' = 1 ∧
    (["".toList, "".toList, "AAA".toList, "AA".toList].flatten.count ' ') = 0 := by
  decide


/-- A character that does not occur in a string is not found by `rfind`. -/
theorem pyRfind_eq_neg_one (s : List Char) (c : Char) (h : c ∉ s) :
    pyRfind s c = -1 := by
  induction s with
  | nil => rfl
  | cons a rest ih =>
      simp only [List.mem_cons, not_or] at h
      have ha : ¬ (a = c) := fun hac => h.1 hac.symm
      simp [pyRfind, ih h.2, ha]

/-- `rfind` locates the last occurrence: if `c` does not occur in `l2`,
its last occurrence in `l1 ++ c :: l2` is at index `l1.length`. -/
theorem pyRfind_append (l1 l2 : List Char) (c : Char) (h : c ∉ l2) :
    pyRfind (l1 ++ c :: l2) c = (l1.length : Int) := by
  induction l1 with
  | nil =>
      simp [pyRfind, pyRfind_eq_neg_one l2 c h]
  | cons a l1 ih =>
      have hne : (l1.length : Int) ≠ -1 := by omega
      have hunf : pyRfind (a :: (l1 ++ c :: l2)) c =
          if pyRfind (l1 ++ c :: l2) c ≠ -1 then pyRfind (l1 ++ c :: l2) c + 1
          else if a = c then 0 else -1 := rfl
      rw [List.cons_append, hunf, ih, if_pos hne, List.length_cons]
      push_cast
      ring

/-- A Python slice with natural-number bounds is `take` then `drop`. -/
theorem pySlice_ofNat (s : List Char) (a b : Nat) :
    pySlice s (a : Int) (b : Int) = (s.take b).drop a := by
  unfold pySlice
  have ha : ¬ ((a : Int) < 0) := by omega
  have hb : ¬ ((b : Int) < 0) := by omega
  simp only [if_neg ha, if_neg hb]
  have h1 : (min (b : Int) (s.length : Int)).toNat = min b s.length := by omega
  have h2 : (min (a : Int) (s.length : Int)).toNat = min a s.length := by omega
  rw [h1, h2]
  rcases le_total b s.length with hble | hble
  · rw [min_eq_left hble]
    rcases le_total a s.length with hale | hale
    · rw [min_eq_left hale]
    · rw [min_eq_right hale]
      have hlen : (s.take b).length ≤ s.length := by
        simp [List.length_take]
      rw [List.drop_eq_nil_of_le hlen, List.drop_eq_nil_of_le (hlen.trans hale)]
  · rw [min_eq_right hble, List.take_length,
      List.take_of_length_le hble]
    rcases le_total a s.length with hale | hale
    · rw [min_eq_left hale]
    · rw [min_eq_right hale,
        List.drop_eq_nil_of_le le_rfl, List.drop_eq_nil_of_le hale]

theorem scenarioText_length : scenarioText.length = 3001 := by
  simp [scenarioText]

/-- A slice of the scenario text lying inside the `A` block. -/
theorem scenario_slice_A (a b : Nat) (hab : a ≤ b) (hb : b ≤ 1500) :
    (scenarioText.take b).drop a = List.replicate (b - a) 'A' := by
  rw [scenarioText,
    List.take_append_of_le_length (by simpa using hb),
    List.take_replicate, List.drop_replicate]
  congr 1
  omega

/-- A slice of the scenario text that starts in the `A` block and ends in
the `B` block, so that it contains the single space. -/
theorem scenario_slice_mid (a b : Nat) (ha : a ≤ 1500) (hb1 : 1501 ≤ b)
    (hb2 : b ≤ 3001) :
    (scenarioText.take b).drop a =
      List.replicate (1500 - a) 'A' ++ ' ' :: List.replicate (b - 1501) 'B' := by
  have hb' : b = (List.replicate 1500 'A').length + (b - 1500) := by
    simp; omega
  rw [scenarioText, hb', List.take_append]
  have hsucc : b - 1500 = (b - 1501) + 1 := by omega
  rw [hsucc, List.take_succ_cons, List.take_replicate,
    List.drop_append_of_le_length (by simpa using ha),
    List.drop_replicate]
  have : min (b - 1501) 1500 = b - 1501 := by omega
  rw [this]
  simp only [List.length_replicate]
  have harith : 1500 + (b - 1501 + 1) - 1501 = b - 1501 := by omega
  rw [harith]

theorem pyRfind_replicate_single (n : Nat) (a c : Char) (hc : c ≠ a) :
    pyRfind (List.replicate n a) c = -1 :=
  pyRfind_eq_neg_one _ _ (by simp [List.mem_replicate, hc])

theorem pyRfind_mid_space (n m : Nat) :
    pyRfind (List.replicate n 'A' ++ ' ' :: List.replicate m 'B') ' ' =
      (n : Int) := by
  rw [pyRfind_append _ _ _ (by simp [List.mem_replicate])]
  simp

theorem pyRfind_mid_newline (n m : Nat) :
    pyRfind (List.replicate n 'A' ++ ' ' :: List.replicate m 'B') '\n' = -1 :=
  pyRfind_eq_neg_one _ _ (by
    simp [List.mem_append, List.mem_replicate])

theorem scenario_step_0 :
    splitStep defaultSplitConfig scenarioText 0 =
      (List.replicate 1000 'A', 800) := by
  have hsl : pySlice scenarioText (0 : Int) (1000 : Int) =
      List.replicate 1000 'A' := by
    have h := pySlice_ofNat scenarioText 0 1000
    have h2 := scenario_slice_A 0 1000 (by omega) (by omega)
    norm_num at h h2 ⊢
    rw [h, h2]
  have hnl := pyRfind_replicate_single 1000 'A' '\n' (by decide)
  have hsp := pyRfind_replicate_single 1000 'A' ' ' (by decide)
  simp only [splitStep, defaultSplitConfig]
  norm_num [scenarioText_length, hsl, hnl, hsp]

theorem scenario_step_800 :
    splitStep defaultSplitConfig scenarioText 800 =
      (List.replicate 700 'A', 1300) := by
  have hsl : pySlice scenarioText (800 : Int) (1800 : Int) =
      List.replicate 700 'A' ++ ' ' :: List.replicate 299 'B' := by
    have h := pySlice_ofNat scenarioText 800 1800
    have h2 := scenario_slice_mid 800 1800 (by omega) (by omega) (by omega)
    norm_num at h h2 ⊢
    rw [h, h2]
  have hsl2 : pySlice scenarioText (800 : Int) (1500 : Int) =
      List.replicate 700 'A' := by
    have h := pySlice_ofNat scenarioText 800 1500
    have h2 := scenario_slice_A 800 1500 (by omega) (by omega)
    norm_num at h h2 ⊢
    rw [h, h2]
  have hnl := pyRfind_mid_newline 700 299
  have hsp := pyRfind_mid_space 700 299
  simp only [splitStep, defaultSplitConfig]
  norm_num [scenarioText_length, hsl, hsl2, hnl, hsp]

theorem scenario_step_1300 :
    splitStep defaultSplitConfig scenarioText 1300 =
      (List.replicate 200 'A', 1300) := by
  have hsl : pySlice scenarioText (1300 : Int) (2300 : Int) =
      List.replicate 200 'A' ++ ' ' :: List.replicate 799 'B' := by
    have h := pySlice_ofNat scenarioText 1300 2300
    have h2 := scenario_slice_mid 1300 2300 (by omega) (by omega) (by omega)
    norm_num at h h2 ⊢
    rw [h, h2]
  have hsl2 : pySlice scenarioText (1300 : Int) (1500 : Int) =
      List.replicate 200 'A' := by
    have h := pySlice_ofNat scenarioText 1300 1500
    have h2 := scenario_slice_A 1300 1500 (by omega) (by omega)
    norm_num at h h2 ⊢
    rw [h, h2]
  have hnl := pyRfind_mid_newline 200 799
  have hsp := pyRfind_mid_space 200 799
  simp only [splitStep, defaultSplitConfig]
  norm_num [scenarioText_length, hsl, hsl2, hnl, hsp]

theorem scenario_loop_1300 (fuel : Nat) :
    splitLoop defaultSplitConfig scenarioText fuel 1300 = none := by
  have hlt : (1300 : Int) < (scenarioText.length : Int) := by
    rw [scenarioText_length]; norm_num
  induction fuel with
  | zero => unfold splitLoop; rw [if_pos hlt]
  | succ n ih =>
      apply splitLoop_none_step _ _ _ _ hlt
      rw [scenario_step_1300]
      exact ih

theorem scenario_loop_800 (fuel : Nat) :
    splitLoop defaultSplitConfig scenarioText fuel 800 = none := by
  have hlt : (800 : Int) < (scenarioText.length : Int) := by
    rw [scenarioText_length]; norm_num
  cases fuel with
  | zero => unfold splitLoop; rw [if_pos hlt]
  | succ n =>
      apply splitLoop_none_step _ _ _ _ hlt
      rw [scenario_step_800]
      exact scenario_loop_1300 n

/-- C8: the two boundary facts the scenario asserts do hold of the first
two iterations — the first window is the raw size-bounded cut
`"A" * 1000` ending at position 1000 (no space or newline occurs in the
first 1000 characters) and the second window starts at
`1000 − 200 = 800` — but `_split_text` never returns on this input: from
the third iteration on, the cursor is stuck at 1300 (the window
`text[1300:2300]` breaks at the space at position 1500 and
`1500 − 200 = 1300` again), so for every fuel bound the loop is still
running and no chunk list is ever produced. -/
theorem C8_scenario_boundaries_but_no_termination :
    (splitStep defaultSplitConfig scenarioText 0).1 = List.replicate 1000 'A' ∧
    (splitStep defaultSplitConfig scenarioText 0).2 = 800 ∧
    (splitStep defaultSplitConfig scenarioText 1300).2 = 1300 ∧
    ∀ fuel : Nat, splitText defaultSplitConfig fuel scenarioText = none := by
  refine ⟨by rw [scenario_step_0], by rw [scenario_step_0], by rw [scenario_step_1300], ?_⟩
  intro fuel
  have hlt : (0 : Int) < (scenarioText.length : Int) := by
    rw [scenarioText_length]; norm_num
  unfold splitText
  cases fuel with
  | zero =>
      unfold splitLoop
      rw [if_pos hlt]
      rfl
  | succ n =>
      have h : splitLoop defaultSplitConfig scenarioText (n + 1) 0 = none := by
        apply splitLoop_none_step _ _ _ _ hlt
        rw [scenario_step_0]
        exact scenario_loop_800 n
      rw [h]
      rfl

/-- C4 counterexample: a chunk whose content is `"err"` (3 characters after
trimming) carrying `status="error"` metadata is rejected by
`_validate_chunk` with the default minimum of 10 — the check does not
accept it despite the error status, contradicting the claim. -/
theorem C4_short_error_chunk_rejected :
    validateChunk 10 ⟨"err", [("status", .vStr "error")]⟩ = false := by decide

/-- C4 amended: `_validate_chunk` rejects every chunk whose trimmed content
is shorter than the configured minimum, regardless of metadata — it never
inspects the metadata at all, so a `status="error"` chunk with short
content is rejected exactly like any other short chunk. -/
theorem C4_validity_ignores_metadata (minSize : Nat) (content : String)
    (md md' : Metadata) :
    validateChunk minSize ⟨content, md⟩ = validateChunk minSize ⟨content, md'⟩ ∧
    (validateChunk minSize ⟨content, md⟩ = true ↔
      minSize ≤ (pyStrip content.toList).length) := by
  refine ⟨rfl, ?_⟩
  simp [validateChunk, chunkLen]

/-- C5 counterexample: processing a single-page text document whose page
text is `"hello world"` produces one chunk whose metadata carries no
`total_chunks` key at all, contradicting the claim that every extractor
chunk's `total_chunks` equals the sequence length. -/
theorem C5_pdf_chunk_has_no_total_chunks :
    pdfProcessPages defaultSplitConfig 10 "f.pdf" 0 ["hello world"] =
      some [pdfChunk "f.pdf" 0 0 "hello world"] ∧
    (pdfChunk "f.pdf" 0 0 "hello world").metadata.get? "total_chunks" =
      none := by
  constructor
  · decide
  · rfl

/-- C5 amended: `chunk_index` is contiguous starting at 0 over each
extractor output unit (per page for text documents, per transcript for
audio); `total_chunks` is attached only by the audio extractor, where it
equals the transcript sequence length — text-document chunks carry no
`total_chunks` key. -/
theorem C5_chunk_index_contiguous (parts : List String) (file lang : String)
    (pageIdx : Nat) :
    (pdfPageChunks file pageIdx parts).map
        (fun c => c.metadata.get? "chunk_index") =
      (List.range' 0 parts.length).map (fun j => some (.vInt j)) ∧
    (pdfPageChunks file pageIdx parts).map
        (fun c => c.metadata.get? "total_chunks") =
      List.replicate parts.length none ∧
    (audioTranscriptChunks file lang parts).map
        (fun c => c.metadata.get? "chunk_index") =
      (List.range' 0 parts.length).map (fun j => some (.vInt j)) ∧
    (audioTranscriptChunks file lang parts).map
        (fun c => c.metadata.get? "total_chunks") =
      List.replicate parts.length (some (.vInt parts.length)) := by
  unfold pdfPageChunks audioTranscriptChunks
  refine ⟨?_, ?_, ?_, ?_⟩
  · exact enumMap_map_range (pdfChunk file pageIdx)
      (fun c => c.metadata.get? "chunk_index")
      (fun j => some (.vInt j)) (fun i t => rfl) 0 parts
  · exact enumMap_map_const (pdfChunk file pageIdx)
      (fun c => c.metadata.get? "total_chunks")
      none (fun i t => rfl) 0 parts
  · exact enumMap_map_range (audioChunk file lang parts.length)
      (fun c => c.metadata.get? "chunk_index")
      (fun j => some (.vInt j)) (fun i t => rfl) 0 parts
  · exact enumMap_map_const (audioChunk file lang parts.length)
      (fun c => c.metadata.get? "total_chunks")
      (some (.vInt parts.length)) (fun i t => rfl) 0 parts

/-- C7: a falsy transcription result — no result object, a missing `text`
key, or empty text — makes the audio extractor return exactly the one
no-speech sentinel chunk, with placeholder content and
`status = "no_speech_detected"`. -/
theorem C7_no_speech_single_sentinel (splitter : String → List String)
    (file : String) (lang : Option String) :
    audioProcess splitter file (.ok none) = [noSpeechChunk file] ∧
    audioProcess splitter file (.ok (some ⟨none, lang⟩)) =
      [noSpeechChunk file] ∧
    audioProcess splitter file (.ok (some ⟨some "", lang⟩)) =
      [noSpeechChunk file] ∧
    (noSpeechChunk file).content = "[Audio content detected]" ∧
    (noSpeechChunk file).metadata.get? "status" =
      some (.vStr "no_speech_detected") := by
  refine ⟨rfl, rfl, rfl, rfl, rfl⟩

/-- C6: an audio extraction failure is converted to a single error chunk
carrying the failure message in its content and `status="error"` metadata
(never re-raised), while text-document and video extraction failures
propagate to the caller unchanged. -/
theorem C6_failure_policy (splitter : String → List String)
    (file e : String) (cfg : SplitConfig) (fuel : Nat) :
    audioProcess splitter file (.error e) = [audioErrorChunk file e] ∧
    (audioErrorChunk file e).content =
      "[Error processing audio: " ++ e ++ "]" ∧
    (audioErrorChunk file e).metadata.get? "status" = some (.vStr "error") ∧
    pdfProcess cfg fuel file (.error e) = .error e ∧
    videoProcess (.error e) = .error e :=
  ⟨rfl, rfl, rfl, rfl, rfl⟩

/-- C3: the error policy is asymmetric — `search` swallows any backing
failure and returns an empty result list, single and batched insertion
and deletion re-raise the backing failure, and a `get` on an absent id
(empty result set from the store) returns nothing rather than an
error. -/
theorem C3_error_policy_asymmetry (e : String) (ms : List Metadata) :
    searchStore (.error e) = [] ∧
    addDocument (.error e) = .error e ∧
    batchAddDocuments (.error e) = .error e ∧
    deleteDocument (.error e) = .error e ∧
    getDocument (.ok ⟨[], ms⟩) = none ∧
    getDocument (.error e) = none := by
  refine ⟨rfl, rfl, rfl, rfl, ?_, rfl⟩
  cases ms <;> rfl

/-- C9: the metadata persisted at the storage boundary has exactly the six
stored keys, which form a subset of the recognized keys of the data
model; any key outside the stored set is dropped (its value is not looked
up by any persisted entry), and the chunk content is sent to the store
unchanged by both single and batched insertion. -/
theorem C9_storage_metadata_subset (md : Metadata) (c : BaseChunk)
    (cs : List BaseChunk) (k : String) :
    (storedMeta md).map Prod.fst = storedKeys ∧
    (storedKeys.all fun k2 => recognizedKeys.contains k2) = true ∧
    (k ∉ storedKeys → (storedMeta md).get? k = none) ∧
    (addDocumentSent c).1 = [c.content] ∧
    (batchAddSent cs).1 = cs.map (fun c2 => c2.content) := by
  refine ⟨rfl, by decide, ?_, rfl, rfl⟩
  intro hk
  simp only [storedKeys, List.mem_cons, List.not_mem_nil, or_false,
    not_or] at hk
  obtain ⟨h1, h2, h3, h4, h5, h6⟩ := hk
  have e1 : (k == "document_type") = false := beq_eq_false_iff_ne.mpr h1
  have e2 : (k == "page_number") = false := beq_eq_false_iff_ne.mpr h2
  have e3 : (k == "timestamp") = false := beq_eq_false_iff_ne.mpr h3
  have e4 : (k == "source_file") = false := beq_eq_false_iff_ne.mpr h4
  have e5 : (k == "chunk_index") = false := beq_eq_false_iff_ne.mpr h5
  have e6 : (k == "language") = false := beq_eq_false_iff_ne.mpr h6
  simp [storedMeta, Metadata.get?, List.lookup, e1, e2, e3, e4, e5, e6]

/-- Witness for C9 at a concrete unrecognized key: a `custom` key present
on the source chunk's metadata is dropped by the storage boundary. -/
theorem C9_storage_metadata_subset_witness :
    (storedMeta [("custom", .vStr "x")]).get? "custom" = none :=
  (C9_storage_metadata_subset [("custom", .vStr "x")] ⟨"c", []⟩ [] "custom").2.2.1
    (by decide)

/-- C10: every persisted record has exactly the six stored keys, with the
documented defaults injected when absent (`timestamp` 0.0, `chunk_index`
0, `language` "en"); the `status` key is never persisted, so in
particular the audio no-speech sentinel chunk loses its status marker at
the storage boundary. -/
theorem C10_stored_exactly_six_keys (md : Metadata) (file : String) :
    (storedMeta md).map Prod.fst = storedKeys ∧
    (md.get? "timestamp" = none →
      (storedMeta md).get? "timestamp" = some (.vFloat 0)) ∧
    (md.get? "chunk_index" = none →
      (storedMeta md).get? "chunk_index" = some (.vInt 0)) ∧
    (md.get? "language" = none →
      (storedMeta md).get? "language" = some (.vStr "en")) ∧
    (storedMeta md).get? "status" = none ∧
    (noSpeechChunk file).metadata.get? "status" =
      some (.vStr "no_speech_detected") ∧
    (storedMeta (noSpeechChunk file).metadata).get? "status" = none := by
  refine ⟨rfl, ?_, ?_, ?_, rfl, rfl, rfl⟩ <;>
    · intro h
      simp only [Metadata.get?] at h
      simp [storedMeta, Metadata.get?, Metadata.getD, List.lookup, h]

/-- Witness for C10: an error-status-only metadata dict receives all three
defaults. -/
theorem C10_stored_exactly_six_keys_witness :
    (storedMeta [("status", .vStr "error")]).get? "timestamp" =
        some (.vFloat 0) ∧
    (storedMeta [("status", .vStr "error")]).get? "chunk_index" =
        some (.vInt 0) ∧
    (storedMeta [("status", .vStr "error")]).get? "language" =
        some (.vStr "en") :=
  ⟨(C10_stored_exactly_six_keys [("status", .vStr "error")] "f.wav").2.1
      (by decide),
   (C10_stored_exactly_six_keys [("status", .vStr "error")] "f.wav").2.2.1
      (by decide),
   (C10_stored_exactly_six_keys [("status", .vStr "error")] "f.wav").2.2.2.1
      (by decide)⟩
